import Mathlib

/-!
Shallow embedding of the transaction layer of the CreditAnalyzer repository
(file src/unnamed/part_001: TransactionTracker, GasEstimator,
TransactionExecutor, getTransactionStatus) and of decryptResult
(src/src/utils/fhe.ts).

External effects (provider calls, contract calls, wallet interaction) are
summarised by their outcome, passed as an explicit argument: a promise that
resolves is an `Except.ok` payload, a promise that rejects carries the
JavaScript error value.  BigInt quantities are modelled as `Nat` (they are
non-negative wei/gas amounts in the source); JavaScript error codes are
`Option Int`.  Display-only string formatting (formatUnits, formatEther,
parseFloat(...).toFixed(6)) is not modelled; instead the numeric value being
formatted is kept (for the estimated cost, the wei amount before formatting).
-/

namespace CreditAnalyzer

/-- The four values of the TransactionStatus.status field. -/
inductive TxPhase
  | pending
  | confirming
  | confirmed
  | failed
deriving DecidableEq

/-- The TransactionStatus record emitted to onStatusUpdate callbacks.
Numeric payloads stand for the values the source formats for display. -/
structure TransactionStatus where
  hash : Option String
  status : TxPhase
  confirmations : Nat
  gasUsed : Option Nat
  effectiveGasPrice : Option Nat
  blockNumber : Option Nat
  error : Option String
deriving DecidableEq

/-- A transaction receipt as the tracker reads it: the integer success
indicator (1 = success), inclusion block, gas used, and the optional
effective gas price. -/
structure Receipt where
  status : Nat
  blockNumber : Nat
  gasUsed : Nat
  gasPrice : Option Nat
deriving DecidableEq

/-- A JavaScript error value as the catch blocks see it: an optional numeric
code and a message string. -/
structure JsError where
  code : Option Int
  message : String
deriving DecidableEq

/-- Outcome of the external provider.waitForTransaction call: it can resolve
with a receipt, resolve with null, or reject. -/
inductive WaitOutcome
  | receipt (r : Receipt)
  | nullReceipt
  | rejects (e : JsError)
deriving DecidableEq

/-- The initial update emitted by TransactionTracker.trackTransaction. -/
def pendingUpdate (txHash : String) : TransactionStatus :=
  ⟨some txHash, TxPhase.pending, 0, none, none, none, none⟩

/-- The final update trackTransaction emits after reading a receipt:
confirmed when the success indicator is 1, else failed; confirmations is the
literal 1 of the source. -/
def successUpdate (txHash : String) (r : Receipt) : TransactionStatus :=
  ⟨some txHash, if r.status = 1 then TxPhase.confirmed else TxPhase.failed, 1,
    some r.gasUsed, r.gasPrice, some r.blockNumber, none⟩

/-- The update trackTransaction emits from its catch block. -/
def trackFailedUpdate (txHash : String) (e : JsError) : TransactionStatus :=
  ⟨some txHash, TxPhase.failed, 0, none, none, none, some e.message⟩

/-- The error thrown when waitForTransaction resolves with null. -/
def receiptNotFoundError : JsError :=
  ⟨none, "Transaction receipt not found"⟩

/-- Shallow embedding of TransactionTracker.trackTransaction.  The result is
the ordered list of updates delivered to onStatusUpdate together with the
function's outcome (the returned receipt, or the rethrown error). -/
def trackTransaction (txHash : String) (wait : WaitOutcome) :
    List TransactionStatus × Except JsError Receipt :=
  match wait with
  | WaitOutcome.receipt r =>
      ([pendingUpdate txHash, successUpdate txHash r], Except.ok r)
  | WaitOutcome.nullReceipt =>
      ([pendingUpdate txHash, trackFailedUpdate txHash receiptNotFoundError],
        Except.error receiptNotFoundError)
  | WaitOutcome.rejects e =>
      ([pendingUpdate txHash, trackFailedUpdate txHash e], Except.error e)

/-- The fee data returned by provider.getFeeData: each field may be null. -/
structure FeeData where
  gasPrice : Option Nat
  maxFeePerGas : Option Nat
  maxPriorityFeePerGas : Option Nat
deriving DecidableEq

/-- The GasEstimate record.  estimatedCostWei is the wei amount the source
formats into the estimatedCost display string; on the default (catch) branch
the source hard-codes the display string, so no wei amount exists there. -/
structure GasEstimate where
  gasLimit : Nat
  gasPrice : Nat
  maxFeePerGas : Option Nat
  maxPriorityFeePerGas : Option Nat
  estimatedCostWei : Option Nat
deriving DecidableEq

/-- JavaScript truthiness of an optional bigint: null, undefined and 0n are
falsy. -/
def optTruthy : Option Nat → Bool
  | some n => n != 0
  | none => false

/-- JavaScript a || b where a is an optional bigint and b a bigint. -/
def jsOrNat (a : Option Nat) (b : Nat) : Nat :=
  if optTruthy a then a.getD b else b

/-- JavaScript a || undefined for an optional bigint. -/
def jsOrUndef (a : Option Nat) : Option Nat :=
  if optTruthy a then a else none

/-- The default estimate returned by estimateContractCall's catch block:
gas limit 200000 and a legacy price of 20 gwei, i.e. 20000000000 wei (the
source writes parseUnits applied to the string "20" at unit gwei); no
dynamic-fee fields.  The hard-coded estimatedCost display string of the
source has no underlying wei amount, hence none. -/
def defaultGasEstimate : GasEstimate :=
  { gasLimit := 200000
    gasPrice := 20000000000
    maxFeePerGas := none
    maxPriorityFeePerGas := none
    estimatedCostWei := none }

/-- Shallow embedding of GasEstimator.estimateContractCall.  The two awaited
external queries (provider.getFeeData and the contract method's estimateGas)
are summarised by their joint outcome: if either throws, control reaches the
catch-all branch, which returns the default estimate. -/
def estimateContractCall (outcome : Except JsError (FeeData × Nat)) :
    GasEstimate :=
  match outcome with
  | Except.error _ => defaultGasEstimate
  | Except.ok (feeData, gasLimit) =>
      let bufferedGasLimit := gasLimit * 120 / 100
      let gasPrice := jsOrNat feeData.gasPrice 0
      let maxFeePerGas :=
        if !optTruthy feeData.maxFeePerGas && gasPrice > 0 then some gasPrice
        else feeData.maxFeePerGas
      let estimatedCostWei := bufferedGasLimit * jsOrNat maxFeePerGas gasPrice
      { gasLimit := bufferedGasLimit
        gasPrice := gasPrice
        maxFeePerGas := jsOrUndef maxFeePerGas
        maxPriorityFeePerGas := jsOrUndef feeData.maxPriorityFeePerGas
        estimatedCostWei := some estimatedCostWei }

/-- Does the pattern match at the head of the character list? -/
def prefixMatch : List Char → List Char → Bool
  | [], _ => true
  | _ :: _, [] => false
  | p :: ps, c :: cs => p == c && prefixMatch ps cs

/-- Does the pattern occur anywhere in the character list? -/
def containsSubList (pat : List Char) : List Char → Bool
  | [] => prefixMatch pat []
  | c :: cs => prefixMatch pat (c :: cs) || containsSubList pat cs

/-- JavaScript String.prototype.includes, as used with error.message. -/
def strIncludes (s pat : String) : Bool :=
  containsSubList pat.toList s.toList

/-- The userMessage computation in TransactionExecutor.executeTransaction's
catch block: the numeric-code checks come first, then the three substring
checks, and an unmatched error keeps its original message. -/
def classifyError (e : JsError) : String :=
  if e.code = some 4001 then "Transaction cancelled by user"
  else if e.code = some (-32603) then
    "Transaction failed - insufficient funds or contract error"
  else if strIncludes e.message "insufficient funds" then
    "Insufficient ETH balance for gas fees"
  else if strIncludes e.message "user rejected" then
    "Transaction rejected by user"
  else if strIncludes e.message "execution reverted" then
    "Contract execution failed - check your data"
  else e.message

/-- The options argument of executeTransaction; absent members are none. -/
structure ExecOptions where
  confirmations : Option Nat
  timeout : Option Nat
deriving DecidableEq

/-- The pending update the executor emits before submitting (no hash field). -/
def executorPendingUpdate : TransactionStatus :=
  ⟨none, TxPhase.pending, 0, none, none, none, none⟩

/-- The failed update the executor's catch block emits. -/
def executorFailedUpdate (userMessage : String) : TransactionStatus :=
  ⟨none, TxPhase.failed, 0, none, none, none, some userMessage⟩

/-- Shallow embedding of TransactionExecutor.executeTransaction.  External
effects are summarised by: the joint outcome of the estimator's two queries
(estOutcome), the submission outcome (the transaction hash when the contract
call resolves, the raised error when it rejects), and the wait outcome seen
by the tracker.  The result is the ordered list of updates delivered to
onStatusUpdate together with the outcome (the receipt, or the message of the
new Error the catch block throws).  As in the source, the destructured
confirmations and timeout options are bound (with defaults 1 and 300000) and
then never used. -/
def executeTransaction (estOutcome : Except JsError (FeeData × Nat))
    (submit : Except JsError String) (wait : WaitOutcome)
    (options : ExecOptions) :
    List TransactionStatus × Except String Receipt :=
  let _confirmations := options.confirmations.getD 1
  let _timeout := options.timeout.getD 300000
  let _gasEstimate := estimateContractCall estOutcome
  match submit with
  | Except.error e =>
      let userMessage := classifyError e
      ([executorPendingUpdate, executorFailedUpdate userMessage],
        Except.error userMessage)
  | Except.ok txHash =>
      match trackTransaction txHash wait with
      | (updates, Except.ok receipt) =>
          (executorPendingUpdate :: updates, Except.ok receipt)
      | (updates, Except.error e) =>
          let userMessage := classifyError e
          (executorPendingUpdate :: (updates ++ [executorFailedUpdate userMessage]),
            Except.error userMessage)

/-- Is a status update terminal (confirmed or failed)? -/
def isTerminal (u : TransactionStatus) : Bool :=
  match u.status with
  | TxPhase.confirmed => true
  | TxPhase.failed => true
  | _ => false

/-- Hexadecimal value of one character, none for a non-hex character. -/
def hexVal (c : Char) : Option Nat :=
  if '0' ≤ c ∧ c ≤ '9' then some (c.toNat - Char.toNat '0')
  else if 'a' ≤ c ∧ c ≤ 'f' then some (c.toNat - Char.toNat 'a' + 10)
  else if 'A' ≤ c ∧ c ≤ 'F' then some (c.toNat - Char.toNat 'A' + 10)
  else none

/-- parseInt of a two-character chunk at radix 16: the longest hex prefix is
parsed; no hex prefix gives NaN, which the Uint8Array constructor coerces
to 0. -/
def parseHexPair (a b : Char) : Nat :=
  match hexVal a, hexVal b with
  | some x, some y => 16 * x + y
  | some x, none => x
  | none, _ => 0

/-- The chunking performed by matching the two-character regex globally:
successive pairs, with a trailing odd character dropped. -/
def pairUp : List Char → List (Char × Char)
  | a :: b :: rest => (a, b) :: pairUp rest
  | _ => []

/-- The Uint8Array built by decryptResult from the hex string (after
dropping the 0x prefix via slice). -/
def hexToBytes (s : String) : List Nat :=
  (pairUp (s.drop 2).toList).map (fun p => parseHexPair p.1 p.2)

/-- Shallow embedding of decryptResult (src/src/utils/fhe.ts).  The
module-level fhevmInstance handle is passed as a flag.  When initialized,
the byte conversion is computed and then unused, and the placeholder 0 is
returned, as in the source. -/
def decryptResult (instanceInitialized : Bool) (encryptedResult : String) :
    Except String Nat :=
  if !instanceInitialized then Except.error "FHE instance not initialized"
  else
    let _bytes := hexToBytes encryptedResult
    Except.ok 0

/-- Shallow embedding of getTransactionStatus: the provider call's outcome
is the argument (ok: a receipt or null; error: the call rejected, which the
catch block turns into null). -/
def getTransactionStatus (call : Except JsError (Option Receipt)) :
    Option Receipt :=
  match call with
  | Except.ok r => r
  | Except.error _ => none

/-- JavaScript a || undefined followed by getD agrees with a || b. -/
theorem jsOrUndef_getD (a : Option Nat) (b : Nat) :
    (jsOrUndef a).getD b = jsOrNat a b := by
  cases a with
  | none => rfl
  | some n =>
      by_cases h : n = 0 <;> simp [jsOrUndef, jsOrNat, optTruthy, h]

/-- C1: executeTransaction's behaviour (the emitted updates and the outcome)
does not depend on the timeout option: the source destructures timeout with
default 300000 and never uses it, so there is no timeout mechanism and no
invocation can fail with a timeout classification when the confirmation wait
does not reach a terminal receipt. -/
theorem executeTransaction_timeout_unused
    (estOutcome : Except JsError (FeeData × Nat))
    (submit : Except JsError String) (wait : WaitOutcome)
    (c t u : Option Nat) :
    executeTransaction estOutcome submit wait ⟨c, t⟩ =
      executeTransaction estOutcome submit wait ⟨c, u⟩ := rfl

/-- C2 counterexample: on the path where the confirmation wait raises, a
single executeTransaction invocation delivers the phase sequence pending,
pending, failed, failed: two terminal updates, the second emitted after a
terminal one, contradicting the claimed ordering guarantee. -/
theorem executeTransaction_double_terminal_counterexample :
    ((executeTransaction (Except.ok (⟨some 10, none, none⟩, 100))
        (Except.ok "0xabc") (WaitOutcome.rejects ⟨none, "boom"⟩)
        ⟨none, none⟩).1.map TransactionStatus.status) =
      [TxPhase.pending, TxPhase.pending, TxPhase.failed, TxPhase.failed] := rfl

/-- C2 amended: the phase sequence of a single executeTransaction invocation
is one of: pending, failed (submission rejected); pending, pending, confirmed
(receipt with success indicator 1); pending, pending, failed (receipt with
another indicator); or pending, pending, failed, failed (the wait raises: the
tracker's failed update is followed by a second failed update from the
executor's catch block, so two terminal updates are emitted on that path). -/
theorem executeTransaction_update_phases
    (estOutcome : Except JsError (FeeData × Nat))
    (submit : Except JsError String) (wait : WaitOutcome) (o : ExecOptions) :
    (executeTransaction estOutcome submit wait o).1.map TransactionStatus.status =
        [TxPhase.pending, TxPhase.failed] ∨
    (executeTransaction estOutcome submit wait o).1.map TransactionStatus.status =
        [TxPhase.pending, TxPhase.pending, TxPhase.confirmed] ∨
    (executeTransaction estOutcome submit wait o).1.map TransactionStatus.status =
        [TxPhase.pending, TxPhase.pending, TxPhase.failed] ∨
    (executeTransaction estOutcome submit wait o).1.map TransactionStatus.status =
        [TxPhase.pending, TxPhase.pending, TxPhase.failed, TxPhase.failed] := by
  cases submit with
  | error e => left; rfl
  | ok txHash =>
      cases wait with
      | receipt r =>
          by_cases h : r.status = 1
          · right; left
            simp [executeTransaction, trackTransaction, successUpdate,
              pendingUpdate, executorPendingUpdate, h]
          · right; right; left
            simp [executeTransaction, trackTransaction, successUpdate,
              pendingUpdate, executorPendingUpdate, h]
      | nullReceipt => right; right; right; rfl
      | rejects e => right; right; right; rfl

/-- C3 counterexample: for raw estimate 100001 the returned gasLimit is
120001, while the ceiling of 100001 times 1.2 (computed as the ceiling
division (100001 * 120 + 99) / 100) is 120002, so the buffered value rounds
down below the exact product, contradicting the claim. -/
theorem gasLimit_ceil_counterexample :
    (estimateContractCall (Except.ok (⟨some 10, none, none⟩, 100001))).gasLimit
        = 120001 ∧
    (100001 * 120 + 99) / 100 = 120002 ∧
    (120001 : Nat) ≠ 120002 := ⟨rfl, rfl, by decide⟩

/-- C3 amended: on the success path the returned gasLimit is the floor of
rawEstimate * 120 / 100 (BigInt division truncates): it is the unique g with
g * 100 ≤ raw * 120 < (g + 1) * 100. -/
theorem gasLimit_floor (fd : FeeData) (raw : Nat) :
    (estimateContractCall (Except.ok (fd, raw))).gasLimit * 100 ≤ raw * 120 ∧
    raw * 120 <
      ((estimateContractCall (Except.ok (fd, raw))).gasLimit + 1) * 100 := by
  have hg : (estimateContractCall (Except.ok (fd, raw))).gasLimit
      = raw * 120 / 100 := rfl
  have h1 := Nat.div_add_mod (raw * 120) 100
  have h2 : raw * 120 % 100 < 100 := Nat.mod_lt _ (by norm_num)
  omega

/-- C4: estimateContractCall is total (the model returns on every outcome)
and on any thrown internal error it returns the fixed default estimate:
gasLimit 200000, legacy gas price 20 gwei (20000000000 wei), and no
dynamic-fee fields. -/
theorem estimateContractCall_default_on_error (e : JsError) :
    estimateContractCall (Except.error e) = defaultGasEstimate ∧
    defaultGasEstimate.gasLimit = 200000 ∧
    defaultGasEstimate.gasPrice = 20000000000 ∧
    defaultGasEstimate.maxFeePerGas = none ∧
    defaultGasEstimate.maxPriorityFeePerGas = none :=
  ⟨rfl, rfl, rfl, rfl, rfl⟩

/-- C5 counterexample: with network fee data carrying a legacy price 10 and
the dynamic pair 20 / 2, the returned estimate populates both schemes at
once (legacy gasPrice 10 together with the dynamic pair); and with fee data
carrying the pair 5 / 10 the returned pair has max fee 5 strictly below max
priority fee 10, so the claimed consistency (max fee at least max priority
fee) is not enforced either. -/
theorem feeScheme_invariant_counterexample :
    ((estimateContractCall (Except.ok (⟨some 10, some 20, some 2⟩, 100))).gasPrice
        = 10 ∧
     (estimateContractCall (Except.ok (⟨some 10, some 20, some 2⟩, 100))).maxFeePerGas
        = some 20 ∧
     (estimateContractCall (Except.ok (⟨some 10, some 20, some 2⟩, 100))).maxPriorityFeePerGas
        = some 2) ∧
    ((estimateContractCall (Except.ok (⟨none, some 5, some 10⟩, 100))).maxFeePerGas
        = some 5 ∧
     (estimateContractCall (Except.ok (⟨none, some 5, some 10⟩, 100))).maxPriorityFeePerGas
        = some 10 ∧
     ¬(10 ≤ (5 : Nat))) :=
  ⟨⟨rfl, rfl, rfl⟩, rfl, rfl, by decide⟩

/-- C5 amended: the estimator passes the network's fee fields through rather
than enforcing a single consistent scheme: gasPrice is always populated
(JavaScript falsy fee data gives 0), maxFeePerGas is the network's value when
truthy, else the positive legacy price when there is one, else unset, and
maxPriorityFeePerGas is the network's value with falsy values dropped; both
schemes may be populated at once and no relation between max fee and max
priority fee is imposed. -/
theorem estimate_fee_fields (fd : FeeData) (raw : Nat) :
    (estimateContractCall (Except.ok (fd, raw))).gasPrice = jsOrNat fd.gasPrice 0 ∧
    (estimateContractCall (Except.ok (fd, raw))).maxFeePerGas =
      (if optTruthy fd.maxFeePerGas then fd.maxFeePerGas
       else if 0 < jsOrNat fd.gasPrice 0 then some (jsOrNat fd.gasPrice 0)
       else none) ∧
    (estimateContractCall (Except.ok (fd, raw))).maxPriorityFeePerGas =
      jsOrUndef fd.maxPriorityFeePerGas := by
  refine ⟨rfl, ?_, rfl⟩
  by_cases h : optTruthy fd.maxFeePerGas
  · simp only [estimateContractCall, h, Bool.not_true, Bool.false_and,
      if_true, if_false, Bool.false_eq_true]
    simp [jsOrUndef, h]
  · have h' : optTruthy fd.maxFeePerGas = false := by simpa using h
    by_cases hp : 0 < jsOrNat fd.gasPrice 0
    · have hg : optTruthy (some (jsOrNat fd.gasPrice 0)) = true := by
        simp only [optTruthy, bne_iff_ne, ne_eq, decide_not]
        omega
      simp [estimateContractCall, jsOrUndef, h', hp, hg]
    · simp [estimateContractCall, jsOrUndef, h', hp]

/-- C6 counterexample: requesting 2 confirmations through the options of
executeTransaction still yields a terminal update whose confirmations field
is 1: the tracker hard-codes a single confirmation and the option is never
forwarded, so the field does not equal the requested count. -/
theorem confirmations_option_ignored_counterexample :
    ((executeTransaction (Except.ok (⟨some 10, none, none⟩, 100))
        (Except.ok "0xabc") (WaitOutcome.receipt ⟨1, 5, 21000, some 7⟩)
        ⟨some 2, none⟩).1.map TransactionStatus.confirmations) = [0, 0, 1] ∧
    (1 : Nat) ≠ 2 := ⟨rfl, by decide⟩

/-- C6 amended: when trackTransaction obtains a receipt it emits exactly the
initial pending update and one terminal update (the pending one is not
terminal, the final one is), the terminal status is confirmed when the
receipt's success indicator is 1 and failed otherwise, no error is raised in
the failed case (the receipt is returned either way), and the confirmations
field of the terminal update is always the literal 1, regardless of any
confirmation count requested through executeTransaction's options. -/
theorem trackTransaction_receipt_path (txHash : String) (r : Receipt) :
    (trackTransaction txHash (WaitOutcome.receipt r)).1 =
      [pendingUpdate txHash, successUpdate txHash r] ∧
    isTerminal (pendingUpdate txHash) = false ∧
    isTerminal (successUpdate txHash r) = true ∧
    (successUpdate txHash r).status =
      (if r.status = 1 then TxPhase.confirmed else TxPhase.failed) ∧
    (successUpdate txHash r).confirmations = 1 ∧
    (trackTransaction txHash (WaitOutcome.receipt r)).2 = Except.ok r := by
  refine ⟨rfl, rfl, ?_, rfl, rfl, rfl⟩
  by_cases h : r.status = 1 <;> simp [isTerminal, successUpdate, h]

/-- C7 counterexample: an error whose message contains the substring
insufficient funds but whose numeric code is 4001 is classified as the
user-cancelled message, not the insufficient-funds one: the numeric-code
checks precede the message checks, so classification is not the claimed
function of the message alone. -/
theorem classifyError_code_precedence_counterexample :
    classifyError ⟨some 4001, "insufficient funds"⟩ =
      "Transaction cancelled by user" ∧
    "Transaction cancelled by user" ≠ "Insufficient ETH balance for gas fees" :=
  ⟨rfl, by decide⟩

/-- C7 amended: classification is a deterministic function of the raw
error's numeric code and message, with the code checks first: code 4001
gives the user-cancelled message; otherwise code -32603 gives the node-level
message; otherwise a message containing insufficient funds gives the
insufficient-funds message, one containing user rejected the user-cancelled
message, one containing execution reverted the contract-rejected message;
any unmatched error keeps its original message verbatim. -/
theorem classifyError_rules (e : JsError) :
    (e.code = some 4001 →
      classifyError e = "Transaction cancelled by user") ∧
    (e.code ≠ some 4001 → e.code = some (-32603) →
      classifyError e = "Transaction failed - insufficient funds or contract error") ∧
    (e.code ≠ some 4001 → e.code ≠ some (-32603) →
      strIncludes e.message "insufficient funds" = true →
      classifyError e = "Insufficient ETH balance for gas fees") ∧
    (e.code ≠ some 4001 → e.code ≠ some (-32603) →
      strIncludes e.message "insufficient funds" = false →
      strIncludes e.message "user rejected" = true →
      classifyError e = "Transaction rejected by user") ∧
    (e.code ≠ some 4001 → e.code ≠ some (-32603) →
      strIncludes e.message "insufficient funds" = false →
      strIncludes e.message "user rejected" = false →
      strIncludes e.message "execution reverted" = true →
      classifyError e = "Contract execution failed - check your data") ∧
    (e.code ≠ some 4001 → e.code ≠ some (-32603) →
      strIncludes e.message "insufficient funds" = false →
      strIncludes e.message "user rejected" = false →
      strIncludes e.message "execution reverted" = false →
      classifyError e = e.message) := by
  refine ⟨?_, ?_, ?_, ?_, ?_, ?_⟩ <;>
    · intros
      simp [classifyError, *]

/-- Witness for the classification rules, at concrete errors exercising the
4001 rule and the unmatched-message rule. -/
theorem classifyError_rules_witness :
    classifyError ⟨some 4001, "whatever"⟩ = "Transaction cancelled by user" ∧
    classifyError ⟨none, "some brand new failure"⟩ = "some brand new failure" :=
  ⟨(classifyError_rules ⟨some 4001, "whatever"⟩).1 rfl,
   (classifyError_rules ⟨none, "some brand new failure"⟩).2.2.2.2.2
     (by decide) (by decide) (by decide) (by decide) (by decide)⟩

/-- C8: when the network's dynamic max fee is absent but a positive legacy
gas price is present, the returned maxFeePerGas is that legacy price; and in
every success case the estimated cost in wei equals the buffered gas limit
times the returned max fee per gas when set, else the returned legacy
price. -/
theorem estimate_degrade_and_cost (fd : FeeData) (raw : Nat) :
    (∀ p : Nat, fd.maxFeePerGas = none → fd.gasPrice = some p → 0 < p →
      (estimateContractCall (Except.ok (fd, raw))).maxFeePerGas = some p) ∧
    (estimateContractCall (Except.ok (fd, raw))).estimatedCostWei =
      some ((estimateContractCall (Except.ok (fd, raw))).gasLimit *
        ((estimateContractCall (Except.ok (fd, raw))).maxFeePerGas.getD
          (estimateContractCall (Except.ok (fd, raw))).gasPrice)) := by
  constructor
  · intro p hmf hgp hp
    have hgp' : jsOrNat fd.gasPrice 0 = p := by
      simp only [jsOrNat, hgp, optTruthy, bne_iff_ne, ne_eq]
      have : ¬p = 0 := by omega
      simp [this]
    have ht : optTruthy (some p) = true := by
      simp only [optTruthy, bne_iff_ne, ne_eq, decide_not]
      omega
    have hp0 : ¬p = 0 := by omega
    simp [estimateContractCall, jsOrUndef, optTruthy, hmf, hgp', hp, ht, hp0]
  · simp only [estimateContractCall, jsOrUndef_getD]

/-- Witness for the degrade-and-cost theorem at fee data with only a legacy
price of 7 and raw estimate 100: the buffered limit is 120, the max fee
degrades to 7, and the cost is 840 wei. -/
theorem estimate_degrade_and_cost_witness :
    (estimateContractCall (Except.ok (⟨some 7, none, none⟩, 100))).maxFeePerGas
      = some 7 ∧
    (estimateContractCall (Except.ok (⟨some 7, none, none⟩, 100))).estimatedCostWei =
      some ((estimateContractCall (Except.ok (⟨some 7, none, none⟩, 100))).gasLimit *
        ((estimateContractCall (Except.ok (⟨some 7, none, none⟩, 100))).maxFeePerGas.getD
          (estimateContractCall (Except.ok (⟨some 7, none, none⟩, 100))).gasPrice)) :=
  ⟨(estimate_degrade_and_cost ⟨some 7, none, none⟩ 100).1 7 rfl rfl (by decide),
   (estimate_degrade_and_cost ⟨some 7, none, none⟩ 100).2⟩

/-- C9: once the instance is initialized, decryptResult returns the number 0
for every hex-string input, and any two inputs give the same result, so a
caller cannot distinguish an undecryptable result from a real zero. -/
theorem decryptResult_always_zero (s t : String) :
    decryptResult true s = Except.ok 0 ∧
    decryptResult true s = decryptResult true t :=
  ⟨rfl, rfl⟩

/-- C10: getTransactionStatus is total over both outcomes of the provider
query: it returns the provider's receipt (or null) when the query resolves
and returns null whenever the provider call rejects. -/
theorem getTransactionStatus_never_raises (r : Option Receipt) (e : JsError) :
    getTransactionStatus (Except.ok r) = r ∧
    getTransactionStatus (Except.error e) = none :=
  ⟨rfl, rfl⟩

end CreditAnalyzer
